import Mathlib

/-!
Shallow embedding of `src/modbus_mcp/cli.py` (modbus-mcp).

The module wires six MCP tool operations to a pymodbus client.  Each
operation builds a client via the async context manager
`get_modbus_client`, performs exactly one Modbus exchange, formats the
outcome as a string, and catches `(ModbusException, RuntimeError,
ValueError)` at its boundary.

The embedding models the pymodbus transport as an explicit `FakeClient`
record of behaviours (what `connect()` does, the post-connect `connected`
flag, and what each exchange primitive returns), threads an event trace
(`constructed` / `connectCalled` / `closeCalled` / `exchangeCalled`)
through every call, and represents a Python exception escaping a function
as `Except.error`.  Message strings reproduce the f-strings of the source
character for character.
-/

/-- A Python exception value, by the classes that matter to `cli.py`:
the operations catch exactly `(ModbusException, RuntimeError, ValueError)`;
`indexError` models `IndexError` from `result.registers[0]`; `otherError`
stands for any exception class outside the caught tuple. -/
inductive PyError where
  | modbusException (msg : String)
  | runtimeError (msg : String)
  | valueError (msg : String)
  | indexError (msg : String)
  | otherError (msg : String)
deriving Repr, DecidableEq

/-- Whether the exception is matched by
`except (ModbusException, RuntimeError, ValueError)` (cli.py lines 96, 130,
167, 201, 238, 275). -/
def isCaught : PyError → Bool
  | .modbusException _ => true
  | .runtimeError _ => true
  | .valueError _ => true
  | .indexError _ => false
  | .otherError _ => false

/-- Python `str(e)` on an exception: its message. -/
def pyStr : PyError → String
  | .modbusException m => m
  | .runtimeError m => m
  | .valueError m => m
  | .indexError m => m
  | .otherError m => m

/-- A pymodbus response object as the operations consume it:
`isError()`, `.registers`, `.bits`, and its `str(...)` rendering used in
error messages. -/
structure PdResponse where
  isErr : Bool
  registers : List Int
  bits : List Bool
  toStr : String
deriving Repr, DecidableEq

/-- A fake pymodbus client: the behaviour of `connect()` (None = returns,
some e = raises e), the `connected` flag after connect, and each exchange
primitive (arguments in source order: address, count/value, slave), which
either returns a response or raises. -/
structure FakeClient where
  connectOutcome : Option PyError
  connected : Bool
  onReadHolding : Int → Int → Int → Except PyError PdResponse
  onReadInput : Int → Int → Int → Except PyError PdResponse
  onReadCoils : Int → Int → Int → Except PyError PdResponse
  onWriteRegister : Int → Int → Int → Except PyError PdResponse
  onWriteCoil : Int → Bool → Int → Except PyError PdResponse

/-- The transport environment: what client each constructor call of
`get_modbus_client` produces.  TCP and UDP clients are built from the
per-call host and port; the serial client is built from process-wide
environment variables only (cli.py lines 37-44), so it takes no per-call
arguments here. -/
structure Env where
  tcpClient : String → Int → FakeClient
  udpClient : String → Int → FakeClient
  serialClient : FakeClient

/-- Observable events of one operation call, for the open/close accounting
of the spec. -/
inductive Event where
  | constructed (transport : String)
  | connectCalled
  | closeCalled
  | exchangeCalled (prim : String)
deriving BEq, DecidableEq, Repr

/-- Count occurrences of an event in a trace. -/
def countEv (e : Event) : List Event → Nat
  | [] => 0
  | x :: xs => (if x = e then 1 else 0) + countEv e xs

/-- Outcome of a (sub)computation: either a string returned to the caller
or a Python exception escaping, together with the event trace. -/
abbrev OpResult := Except PyError String × List Event

/-- Python `str` of a bool: `True` / `False`. -/
def pyBool (b : Bool) : String := if b then "True" else "False"

/-- Python `str` of a list of bools, e.g. `[True, False, True]`. -/
def pyListBool (bs : List Bool) : String :=
  "[" ++ String.intercalate ", " (bs.map pyBool) ++ "]"

/-- Python `str` of a list of ints, e.g. `[1, 2, 3]`. -/
def pyListInt (xs : List Int) : String :=
  "[" ++ String.intercalate ", " (xs.map toString) ++ "]"

/-- cli.py line 46: the `ValueError` message for an unrecognized transport. -/
def invalidTransportMsg (transport : String) : String :=
  "Invalid transport: " ++ transport ++
    ". Must be \x27tcp\x27, \x27udp\x27, or \x27serial\x27."

/-- cli.py line 55: the `RuntimeError` message when `client.connected` is
false after `connect()`. -/
def connFailMsg (transport host : String) (port : Int) : String :=
  "Failed to connect to Modbus " ++ transport ++ " device at " ++ host ++
    ":" ++ toString port

/-- The shared `except` clause message, e.g. cli.py line 97:
`Error communicating with slave {slave_id} at {host}:{port}: {str(e)}`. -/
def commErrorMsg (slave_id : Int) (host : String) (port : Int)
    (e : PyError) : String :=
  "Error communicating with slave " ++ toString slave_id ++ " at " ++ host ++
    ":" ++ toString port ++ ": " ++ pyStr e

/-- cli.py lines 31-46: the transport dispatch of `get_modbus_client`.
An unrecognized transport raises `ValueError` before any client is
constructed. -/
def acquireClient (env : Env) (host : String) (port : Int)
    (transport : String) : Except PyError FakeClient :=
  if transport = "tcp" then .ok (env.tcpClient host port)
  else if transport = "udp" then .ok (env.udpClient host port)
  else if transport = "serial" then .ok env.serialClient
  else .error (.valueError (invalidTransportMsg transport))

/-- cli.py lines 28-59 as used through `async with ... as client:`:
construct the client for the transport, `await client.connect()`, raise
`RuntimeError` if `client.connected` is false, run the with-block body, and
close the client in the `finally` on every exit path reached after
construction. -/
def get_modbus_client (env : Env) (host : String) (port : Int)
    (transport : String) (body : FakeClient → OpResult) : OpResult :=
  match acquireClient env host port transport with
  | .error e => (.error e, [])
  | .ok client =>
    match client.connectOutcome with
    | some e =>
      (.error e, [.constructed transport, .connectCalled, .closeCalled])
    | none =>
      if client.connected then
        match body client with
        | (r, ev) =>
          (r, .constructed transport :: .connectCalled ::
                (ev ++ [.closeCalled]))
      else
        (.error (.runtimeError (connFailMsg transport host port)),
         [.constructed transport, .connectCalled, .closeCalled])

/-- The `try ... except (ModbusException, RuntimeError, ValueError) as e`
wrapper common to all six operations: a caught exception becomes the
communication-error string; any other exception keeps propagating. -/
def opCatch (slave_id : Int) (host : String) (port : Int) :
    OpResult → OpResult
  | (.ok s, ev) => (.ok s, ev)
  | (.error e, ev) =>
    if isCaught e then (.ok (commErrorMsg slave_id host port e), ev)
    else (.error e, ev)

/-- cli.py line 93 error string of `read_register`. -/
def readRegisterErr (address slave_id : Int) (host : String) (port : Int)
    (resStr : String) : String :=
  "Error reading register " ++ toString address ++
    (" from slave " ++ toString slave_id ++
      (" at " ++ host ++ ":" ++ toString port ++ ": " ++ resStr))

/-- cli.py line 95 success string of `read_register`. -/
def readRegisterOk (slave_id address v : Int) : String :=
  "Slave " ++ toString slave_id ++ ", Register " ++ toString address ++
    " Value: " ++ toString v

/-- cli.py lines 91-95: the with-block body of `read_register`.
`result.registers[0]` on an empty list raises `IndexError`. -/
def readRegisterBody (address slave_id : Int) (host : String) (port : Int)
    (client : FakeClient) : OpResult :=
  match client.onReadHolding address 1 slave_id with
  | .error e => (.error e, [.exchangeCalled "read_holding_registers"])
  | .ok result =>
    if result.isErr then
      (.ok (readRegisterErr address slave_id host port result.toStr),
       [.exchangeCalled "read_holding_registers"])
    else
      match result.registers with
      | v :: _ =>
        (.ok (readRegisterOk slave_id address v),
         [.exchangeCalled "read_holding_registers"])
      | [] =>
        (.error (.indexError "list index out of range"),
         [.exchangeCalled "read_holding_registers"])

/-- cli.py lines 70-97: the `read_register` tool. -/
def read_register (env : Env) (address slave_id : Int) (host : String)
    (port : Int) (transport : String) : OpResult :=
  opCatch slave_id host port
    (get_modbus_client env host port transport
      (readRegisterBody address slave_id host port))

/-- cli.py line 127 error string of `write_register`. -/
def writeRegisterErr (address slave_id : Int) (host : String) (port : Int)
    (resStr : String) : String :=
  "Error writing to register " ++ toString address ++
    (" on slave " ++ toString slave_id ++
      (" at " ++ host ++ ":" ++ toString port ++ ": " ++ resStr))

/-- cli.py line 129 success string of `write_register`. -/
def writeRegisterOk (value address slave_id : Int) : String :=
  "Successfully wrote " ++ toString value ++ " to register " ++
    toString address ++ " on slave " ++ toString slave_id

/-- cli.py lines 125-129: the with-block body of `write_register`. -/
def writeRegisterBody (address value slave_id : Int) (host : String)
    (port : Int) (client : FakeClient) : OpResult :=
  match client.onWriteRegister address value slave_id with
  | .error e => (.error e, [.exchangeCalled "write_register"])
  | .ok result =>
    if result.isErr then
      (.ok (writeRegisterErr address slave_id host port result.toStr),
       [.exchangeCalled "write_register"])
    else
      (.ok (writeRegisterOk value address slave_id),
       [.exchangeCalled "write_register"])

/-- cli.py lines 100-131: the `write_register` tool. -/
def write_register (env : Env) (address value slave_id : Int)
    (host : String) (port : Int) (transport : String) : OpResult :=
  opCatch slave_id host port
    (get_modbus_client env host port transport
      (writeRegisterBody address value slave_id host port))

/-- cli.py line 160: the pre-flight validation message of the
multi-element reads. -/
def countValidationMsg : String := "Error: Count must be positive"

/-- cli.py line 164 error string of `read_coils`. -/
def readCoilsErr (address slave_id : Int) (host : String) (port : Int)
    (resStr : String) : String :=
  "Error reading coils starting at " ++ toString address ++
    (" from slave " ++ toString slave_id ++
      (" at " ++ host ++ ":" ++ toString port ++ ": " ++ resStr))

/-- cli.py line 166 success string of `read_coils`: the bit list is
sliced to the first `count` elements (`result.bits[:count]`). -/
def readCoilsOk (slave_id address count : Int) (bits : List Bool) : String :=
  "Slave " ++ toString slave_id ++ ", Coils " ++ toString address ++
    " to " ++ toString (address + count - 1) ++ ": " ++
    pyListBool (bits.take count.toNat)

/-- cli.py lines 162-166: the with-block body of `read_coils`. -/
def readCoilsBody (address count slave_id : Int) (host : String)
    (port : Int) (client : FakeClient) : OpResult :=
  match client.onReadCoils address count slave_id with
  | .error e => (.error e, [.exchangeCalled "read_coils"])
  | .ok result =>
    if result.isErr then
      (.ok (readCoilsErr address slave_id host port result.toStr),
       [.exchangeCalled "read_coils"])
    else
      (.ok (readCoilsOk slave_id address count result.bits),
       [.exchangeCalled "read_coils"])

/-- cli.py lines 135-168: the `read_coils` tool; `count <= 0` is rejected
inside the `try`, before the `async with`. -/
def read_coils (env : Env) (address count slave_id : Int) (host : String)
    (port : Int) (transport : String) : OpResult :=
  opCatch slave_id host port
    (if count ≤ 0 then (.ok countValidationMsg, [])
     else get_modbus_client env host port transport
       (readCoilsBody address count slave_id host port))

/-- cli.py line 198 error string of `write_coil`. -/
def writeCoilErr (address slave_id : Int) (host : String) (port : Int)
    (resStr : String) : String :=
  "Error writing to coil " ++ toString address ++
    (" on slave " ++ toString slave_id ++
      (" at " ++ host ++ ":" ++ toString port ++ ": " ++ resStr))

/-- cli.py line 200 success string of `write_coil`. -/
def writeCoilOk (value : Bool) (address slave_id : Int) : String :=
  "Successfully wrote " ++ pyBool value ++ " to coil " ++
    toString address ++ " on slave " ++ toString slave_id

/-- cli.py lines 196-200: the with-block body of `write_coil`. -/
def writeCoilBody (address : Int) (value : Bool) (slave_id : Int)
    (host : String) (port : Int) (client : FakeClient) : OpResult :=
  match client.onWriteCoil address value slave_id with
  | .error e => (.error e, [.exchangeCalled "write_coil"])
  | .ok result =>
    if result.isErr then
      (.ok (writeCoilErr address slave_id host port result.toStr),
       [.exchangeCalled "write_coil"])
    else
      (.ok (writeCoilOk value address slave_id),
       [.exchangeCalled "write_coil"])

/-- cli.py lines 171-202: the `write_coil` tool. -/
def write_coil (env : Env) (address : Int) (value : Bool) (slave_id : Int)
    (host : String) (port : Int) (transport : String) : OpResult :=
  opCatch slave_id host port
    (get_modbus_client env host port transport
      (writeCoilBody address value slave_id host port))

/-- cli.py line 235 error string of `read_input_registers`. -/
def readInputErr (address slave_id : Int) (host : String) (port : Int)
    (resStr : String) : String :=
  "Error reading input registers starting at " ++ toString address ++
    (" from slave " ++ toString slave_id ++
      (" at " ++ host ++ ":" ++ toString port ++ ": " ++ resStr))

/-- cli.py line 237 success string of `read_input_registers`: the whole
`result.registers` list, not sliced to `count`. -/
def readInputOk (slave_id address count : Int) (regs : List Int) : String :=
  "Slave " ++ toString slave_id ++ ", Input Registers " ++
    toString address ++ " to " ++ toString (address + count - 1) ++ ": " ++
    pyListInt regs

/-- cli.py lines 233-237: the with-block body of `read_input_registers`. -/
def readInputBody (address count slave_id : Int) (host : String)
    (port : Int) (client : FakeClient) : OpResult :=
  match client.onReadInput address count slave_id with
  | .error e => (.error e, [.exchangeCalled "read_input_registers"])
  | .ok result =>
    if result.isErr then
      (.ok (readInputErr address slave_id host port result.toStr),
       [.exchangeCalled "read_input_registers"])
    else
      (.ok (readInputOk slave_id address count result.registers),
       [.exchangeCalled "read_input_registers"])

/-- cli.py lines 206-239: the `read_input_registers` tool. -/
def read_input_registers (env : Env) (address count slave_id : Int)
    (host : String) (port : Int) (transport : String) : OpResult :=
  opCatch slave_id host port
    (if count ≤ 0 then (.ok countValidationMsg, [])
     else get_modbus_client env host port transport
       (readInputBody address count slave_id host port))

/-- cli.py line 272 error string of `read_multiple_holding_registers`. -/
def readHoldingErr (address slave_id : Int) (host : String) (port : Int)
    (resStr : String) : String :=
  "Error reading holding registers starting at " ++ toString address ++
    (" from slave " ++ toString slave_id ++
      (" at " ++ host ++ ":" ++ toString port ++ ": " ++ resStr))

/-- cli.py line 274 success string of `read_multiple_holding_registers`:
the whole `result.registers` list, not sliced to `count`. -/
def readHoldingOk (slave_id address count : Int) (regs : List Int) :
    String :=
  "Slave " ++ toString slave_id ++ ", Holding Registers " ++
    toString address ++ " to " ++ toString (address + count - 1) ++ ": " ++
    pyListInt regs

/-- cli.py lines 270-274: the with-block body of
`read_multiple_holding_registers`. -/
def readHoldingBody (address count slave_id : Int) (host : String)
    (port : Int) (client : FakeClient) : OpResult :=
  match client.onReadHolding address count slave_id with
  | .error e => (.error e, [.exchangeCalled "read_holding_registers"])
  | .ok result =>
    if result.isErr then
      (.ok (readHoldingErr address slave_id host port result.toStr),
       [.exchangeCalled "read_holding_registers"])
    else
      (.ok (readHoldingOk slave_id address count result.registers),
       [.exchangeCalled "read_holding_registers"])

/-- cli.py lines 243-276: the `read_multiple_holding_registers` tool. -/
def read_multiple_holding_registers (env : Env) (address count slave_id : Int)
    (host : String) (port : Int) (transport : String) : OpResult :=
  opCatch slave_id host port
    (if count ≤ 0 then (.ok countValidationMsg, [])
     else get_modbus_client env host port transport
       (readHoldingBody address count slave_id host port))

/-- cli.py line 16: the process-wide default transport is read from the
environment and lowercased before any matching
(`os.environ.get("MODBUS_TYPE", "tcp").lower()`). -/
def moduleModbusType (raw : Option String) : String :=
  ⟨((raw.getD "tcp").data.map Char.toLower)⟩

/-! ## Fake transports used as concrete scenarios -/

/-- A non-error response carrying nothing. -/
def okResp : PdResponse := { isErr := false, registers := [], bits := [], toStr := "" }

/-- A fake client that connects, reports connected, and answers every
exchange with an empty non-error response. -/
def stubClient : FakeClient where
  connectOutcome := none
  connected := true
  onReadHolding := fun _ _ _ => .ok okResp
  onReadInput := fun _ _ _ => .ok okResp
  onReadCoils := fun _ _ _ => .ok okResp
  onWriteRegister := fun _ _ _ => .ok okResp
  onWriteCoil := fun _ _ _ => .ok okResp

/-- An environment in which every transport constructor yields the same
fake client. -/
def constEnv (c : FakeClient) : Env where
  tcpClient := fun _ _ => c
  udpClient := fun _ _ => c
  serialClient := c

/-- A fake client answering every exchange with a fixed response. -/
def allClient (resp : PdResponse) : FakeClient where
  connectOutcome := none
  connected := true
  onReadHolding := fun _ _ _ => .ok resp
  onReadInput := fun _ _ _ => .ok resp
  onReadCoils := fun _ _ _ => .ok resp
  onWriteRegister := fun _ _ _ => .ok resp
  onWriteCoil := fun _ _ _ => .ok resp

/-- A fake client whose `connect()` raises an exception outside the caught
tuple (e.g. an `OSError`). -/
def crashClient : FakeClient :=
  { stubClient with connectOutcome := some (.otherError "boom") }

/-- A fake client whose `connected` flag is false after `connect()`. -/
def offlineClient : FakeClient :=
  { stubClient with connected := false }

/-- Write `v` at holding-register address `a` of a register store. -/
def storeWrite (mem : Int → Int) (a v : Int) : Int → Int :=
  fun x => if x = a then v else mem x

/-- A fake client backed by a holding-register store: reads return the
`count` registers starting at `address`; writes are accepted. -/
def storeClient (mem : Int → Int) : FakeClient where
  connectOutcome := none
  connected := true
  onReadHolding := fun a c _ =>
    .ok { isErr := false,
          registers := (List.range c.toNat).map (fun i => mem (a + i)),
          bits := [], toStr := "" }
  onReadInput := fun _ _ _ => .ok okResp
  onReadCoils := fun _ _ _ => .ok okResp
  onWriteRegister := fun _ _ _ => .ok okResp
  onWriteCoil := fun _ _ _ => .ok okResp

/-- The three transports recognized by `get_modbus_client`. -/
def validTransport (t : String) : Prop :=
  t = "tcp" ∨ t = "udp" ∨ t = "serial"

/-! ## Helper lemmas -/

theorem countEv_append (e : Event) (l1 l2 : List Event) :
    countEv e (l1 ++ l2) = countEv e l1 + countEv e l2 := by
  induction l1 with
  | nil => simp [countEv]
  | cons x xs ih => simp [countEv, ih]; omega

theorem opCatch_snd (slave_id : Int) (host : String) (port : Int)
    (r : OpResult) : (opCatch slave_id host port r).2 = r.2 := by
  rcases r with ⟨r1, ev⟩
  cases r1 with
  | ok s => rfl
  | error e =>
    simp only [opCatch]
    split <;> rfl

theorem opCatch_error_not_caught (slave_id : Int) (host : String)
    (port : Int) (r : OpResult) (e : PyError)
    (h : (opCatch slave_id host port r).1 = .error e) :
    isCaught e = false := by
  rcases r with ⟨r1, ev⟩
  cases r1 with
  | ok s => simp [opCatch] at h
  | error e0 =>
    simp only [opCatch] at h
    split at h
    · simp at h
    · simp at h
      rename_i hc
      rw [← h]
      simpa using hc

theorem acquireClient_constEnv (c : FakeClient) (host : String) (port : Int)
    (t : String) (h : validTransport t) :
    acquireClient (constEnv c) host port t = .ok c := by
  rcases h with h | h | h <;> subst h <;> rfl

theorem acquireClient_bad (env : Env) (host : String) (port : Int)
    (t : String) (h1 : t ≠ "tcp") (h2 : t ≠ "udp") (h3 : t ≠ "serial") :
    acquireClient env host port t =
      .error (.valueError (invalidTransportMsg t)) := by
  simp [acquireClient, h1, h2, h3]

/-- Running the context manager on a client that connects and reports
connected: the body runs, and the client is closed afterwards. -/
theorem get_modbus_client_run (c : FakeClient) (host : String) (port : Int)
    (t : String) (body : FakeClient → OpResult) (h : validTransport t)
    (h1 : c.connectOutcome = none) (h2 : c.connected = true) :
    get_modbus_client (constEnv c) host port t body =
      ((body c).1, .constructed t :: .connectCalled ::
        ((body c).2 ++ [.closeCalled])) := by
  simp only [get_modbus_client, acquireClient_constEnv c host port t h, h1,
    h2]
  rcases hB : body c with ⟨r, ev⟩
  simp [hB]

/-- Running the context manager on a client whose `connected` flag is
false: the `RuntimeError` is raised and the client is closed. -/
theorem get_modbus_client_offline (c : FakeClient) (host : String)
    (port : Int) (t : String) (body : FakeClient → OpResult)
    (h : validTransport t) (h1 : c.connectOutcome = none)
    (h2 : c.connected = false) :
    get_modbus_client (constEnv c) host port t body =
      (.error (.runtimeError (connFailMsg t host port)),
       [.constructed t, .connectCalled, .closeCalled]) := by
  simp only [get_modbus_client, acquireClient_constEnv c host port t h, h1,
    h2]
  simp

theorem readRegisterBody_trace (address slave_id : Int) (host : String)
    (port : Int) (c : FakeClient) :
    (readRegisterBody address slave_id host port c).2 =
      [.exchangeCalled "read_holding_registers"] := by
  unfold readRegisterBody
  split
  · rfl
  · split
    · rfl
    · split <;> rfl

theorem writeRegisterBody_trace (address value slave_id : Int)
    (host : String) (port : Int) (c : FakeClient) :
    (writeRegisterBody address value slave_id host port c).2 =
      [.exchangeCalled "write_register"] := by
  unfold writeRegisterBody
  split
  · rfl
  · split <;> rfl

theorem readCoilsBody_trace (address count slave_id : Int) (host : String)
    (port : Int) (c : FakeClient) :
    (readCoilsBody address count slave_id host port c).2 =
      [.exchangeCalled "read_coils"] := by
  unfold readCoilsBody
  split
  · rfl
  · split <;> rfl

theorem writeCoilBody_trace (address : Int) (value : Bool)
    (slave_id : Int) (host : String) (port : Int) (c : FakeClient) :
    (writeCoilBody address value slave_id host port c).2 =
      [.exchangeCalled "write_coil"] := by
  unfold writeCoilBody
  split
  · rfl
  · split <;> rfl

theorem readInputBody_trace (address count slave_id : Int) (host : String)
    (port : Int) (c : FakeClient) :
    (readInputBody address count slave_id host port c).2 =
      [.exchangeCalled "read_input_registers"] := by
  unfold readInputBody
  split
  · rfl
  · split <;> rfl

theorem readHoldingBody_trace (address count slave_id : Int)
    (host : String) (port : Int) (c : FakeClient) :
    (readHoldingBody address count slave_id host port c).2 =
      [.exchangeCalled "read_holding_registers"] := by
  unfold readHoldingBody
  split
  · rfl
  · split <;> rfl

/-- `sub` occurs contiguously in `s`. -/
def containsStr (s sub : String) : Prop :=
  ∃ pre post : List Char, s.data = pre ++ (sub.data ++ post)

theorem readRegisterErr_contains (a s : Int) (host : String) (p : Int)
    (r : String) :
    containsStr (readRegisterErr a s host p r) (toString a) ∧
    containsStr (readRegisterErr a s host p r) (toString s) := by
  constructor
  · exact ⟨("Error reading register ").data,
      (" from slave " ++ toString s ++
        (" at " ++ host ++ ":" ++ toString p ++ ": " ++ r)).data,
      by simp [readRegisterErr, String.data_append, List.append_assoc]⟩
  · exact ⟨("Error reading register " ++ toString a ++ " from slave ").data,
      (" at " ++ host ++ ":" ++ toString p ++ ": " ++ r).data,
      by simp [readRegisterErr, String.data_append, List.append_assoc]⟩

/-- The counting invariant of the context manager: in the trace of any
call whose body performs no construct/connect/close of its own, closes
equal connects, and closes equal constructions. -/
theorem get_modbus_client_counts (env : Env) (host : String) (port : Int)
    (t : String) (body : FakeClient → OpResult)
    (hb : ∀ c, countEv Event.closeCalled (body c).2 = 0 ∧
          countEv Event.connectCalled (body c).2 = 0 ∧
          countEv (Event.constructed t) (body c).2 = 0) :
    countEv Event.closeCalled (get_modbus_client env host port t body).2
      = countEv Event.connectCalled
          (get_modbus_client env host port t body).2
    ∧ countEv Event.closeCalled (get_modbus_client env host port t body).2
      = countEv (Event.constructed t)
          (get_modbus_client env host port t body).2 := by
  unfold get_modbus_client
  cases hA : acquireClient env host port t with
  | error e => simp [countEv]
  | ok client =>
    cases hC : client.connectOutcome with
    | some e => simp [hC, countEv]
    | none =>
      cases hCon : client.connected
      · simp [hC, hCon, countEv]
      · rcases hB : body client with ⟨r, ev⟩
        obtain ⟨h1, h2, h3⟩ := hb client
        rw [hB] at h1 h2 h3
        simp only at h1 h2 h3
        simp [hC, hCon, hB, countEv, countEv_append, h1, h2, h3]

theorem writeRegisterErr_contains (a s : Int) (host : String) (p : Int)
    (r : String) :
    containsStr (writeRegisterErr a s host p r) (toString a) ∧
    containsStr (writeRegisterErr a s host p r) (toString s) := by
  constructor
  · exact ⟨("Error writing to register ").data,
      (" on slave " ++ toString s ++
        (" at " ++ host ++ ":" ++ toString p ++ ": " ++ r)).data,
      by simp [writeRegisterErr, String.data_append, List.append_assoc]⟩
  · exact ⟨("Error writing to register " ++ toString a ++ " on slave ").data,
      (" at " ++ host ++ ":" ++ toString p ++ ": " ++ r).data,
      by simp [writeRegisterErr, String.data_append, List.append_assoc]⟩

theorem readCoilsErr_contains (a s : Int) (host : String) (p : Int)
    (r : String) :
    containsStr (readCoilsErr a s host p r) (toString a) ∧
    containsStr (readCoilsErr a s host p r) (toString s) := by
  constructor
  · exact ⟨("Error reading coils starting at ").data,
      (" from slave " ++ toString s ++
        (" at " ++ host ++ ":" ++ toString p ++ ": " ++ r)).data,
      by simp [readCoilsErr, String.data_append, List.append_assoc]⟩
  · exact ⟨("Error reading coils starting at " ++ toString a ++
        " from slave ").data,
      (" at " ++ host ++ ":" ++ toString p ++ ": " ++ r).data,
      by simp [readCoilsErr, String.data_append, List.append_assoc]⟩

theorem writeCoilErr_contains (a s : Int) (host : String) (p : Int)
    (r : String) :
    containsStr (writeCoilErr a s host p r) (toString a) ∧
    containsStr (writeCoilErr a s host p r) (toString s) := by
  constructor
  · exact ⟨("Error writing to coil ").data,
      (" on slave " ++ toString s ++
        (" at " ++ host ++ ":" ++ toString p ++ ": " ++ r)).data,
      by simp [writeCoilErr, String.data_append, List.append_assoc]⟩
  · exact ⟨("Error writing to coil " ++ toString a ++ " on slave ").data,
      (" at " ++ host ++ ":" ++ toString p ++ ": " ++ r).data,
      by simp [writeCoilErr, String.data_append, List.append_assoc]⟩

theorem readInputErr_contains (a s : Int) (host : String) (p : Int)
    (r : String) :
    containsStr (readInputErr a s host p r) (toString a) ∧
    containsStr (readInputErr a s host p r) (toString s) := by
  constructor
  · exact ⟨("Error reading input registers starting at ").data,
      (" from slave " ++ toString s ++
        (" at " ++ host ++ ":" ++ toString p ++ ": " ++ r)).data,
      by simp [readInputErr, String.data_append, List.append_assoc]⟩
  · exact ⟨("Error reading input registers starting at " ++ toString a ++
        " from slave ").data,
      (" at " ++ host ++ ":" ++ toString p ++ ": " ++ r).data,
      by simp [readInputErr, String.data_append, List.append_assoc]⟩

theorem readHoldingErr_contains (a s : Int) (host : String) (p : Int)
    (r : String) :
    containsStr (readHoldingErr a s host p r) (toString a) ∧
    containsStr (readHoldingErr a s host p r) (toString s) := by
  constructor
  · exact ⟨("Error reading holding registers starting at ").data,
      (" from slave " ++ toString s ++
        (" at " ++ host ++ ":" ++ toString p ++ ": " ++ r)).data,
      by simp [readHoldingErr, String.data_append, List.append_assoc]⟩
  · exact ⟨("Error reading holding registers starting at " ++ toString a ++
        " from slave ").data,
      (" at " ++ host ++ ":" ++ toString p ++ ": " ++ r).data,
      by simp [readHoldingErr, String.data_append, List.append_assoc]⟩

/-- The trace of a call is balanced for transport `t`: as many closes as
connects, and as many closes as client constructions. -/
def balancedTrace (t : String) (tr : List Event) : Prop :=
  countEv Event.closeCalled tr = countEv Event.connectCalled tr ∧
  countEv Event.closeCalled tr = countEv (Event.constructed t) tr

theorem op_counts_of_body (env : Env) (host : String) (port : Int)
    (t : String) (body : FakeClient → OpResult) (prim : String)
    (hbt : ∀ c, (body c).2 = [Event.exchangeCalled prim]) (slave_id : Int) :
    balancedTrace t
      (opCatch slave_id host port
        (get_modbus_client env host port t body)).2 := by
  unfold balancedTrace
  rw [opCatch_snd]
  exact get_modbus_client_counts env host port t body (fun c => by
    rw [hbt c]
    exact ⟨by simp [countEv], by simp [countEv], by simp [countEv]⟩)

/-- C1: for every operation invocation and every transport behaviour, the
event trace holds exactly as many `close()` calls as `connect()` calls and
as client constructions; so whenever a client is constructed and its
connection scope is entered, `close()` runs exactly once before the
operation returns — on success, on protocol error, and when the exchange
or the post-connect check raises (opens == closes after every call). -/
theorem opens_eq_closes (env : Env) (address count value slave_id : Int)
    (bval : Bool) (host : String) (port : Int) (transport : String) :
    balancedTrace transport
      (read_register env address slave_id host port transport).2 ∧
    balancedTrace transport
      (write_register env address value slave_id host port transport).2 ∧
    balancedTrace transport
      (read_coils env address count slave_id host port transport).2 ∧
    balancedTrace transport
      (write_coil env address bval slave_id host port transport).2 ∧
    balancedTrace transport
      (read_input_registers env address count slave_id host port
        transport).2 ∧
    balancedTrace transport
      (read_multiple_holding_registers env address count slave_id host port
        transport).2 := by
  refine ⟨?_, ?_, ?_, ?_, ?_, ?_⟩
  · exact op_counts_of_body env host port transport _ _
      (readRegisterBody_trace address slave_id host port) slave_id
  · exact op_counts_of_body env host port transport _ _
      (writeRegisterBody_trace address value slave_id host port) slave_id
  · unfold read_coils
    by_cases hc : count ≤ 0
    · rw [if_pos hc]
      exact ⟨rfl, rfl⟩
    · rw [if_neg hc]
      exact op_counts_of_body env host port transport _ _
        (readCoilsBody_trace address count slave_id host port) slave_id
  · exact op_counts_of_body env host port transport _ _
      (writeCoilBody_trace address bval slave_id host port) slave_id
  · unfold read_input_registers
    by_cases hc : count ≤ 0
    · rw [if_pos hc]
      exact ⟨rfl, rfl⟩
    · rw [if_neg hc]
      exact op_counts_of_body env host port transport _ _
        (readInputBody_trace address count slave_id host port) slave_id
  · unfold read_multiple_holding_registers
    by_cases hc : count ≤ 0
    · rw [if_pos hc]
      exact ⟨rfl, rfl⟩
    · rw [if_neg hc]
      exact op_counts_of_body env host port transport _ _
        (readHoldingBody_trace address count slave_id host port) slave_id

/-- C2: each multi-element read called with count <= 0 returns the count
validation error with an empty event trace — no client constructed, no
connection attempted, no read primitive invoked. -/
theorem count_preflight_validation (env : Env)
    (address count slave_id : Int) (host : String) (port : Int)
    (transport : String) (hc : count ≤ 0) :
    read_coils env address count slave_id host port transport
      = (.ok countValidationMsg, []) ∧
    read_input_registers env address count slave_id host port transport
      = (.ok countValidationMsg, []) ∧
    read_multiple_holding_registers env address count slave_id host port
        transport
      = (.ok countValidationMsg, []) := by
  simp only [read_coils, read_input_registers,
    read_multiple_holding_registers, if_pos hc]
  exact ⟨rfl, rfl, rfl⟩

/-- Witness for C2: count = 0 against a live fake transport. -/
theorem count_preflight_validation_witness :
    read_coils (constEnv stubClient) 0 0 1 "127.0.0.1" 502 "tcp"
      = (.ok countValidationMsg, []) ∧
    read_input_registers (constEnv stubClient) 0 0 1 "127.0.0.1" 502 "tcp"
      = (.ok countValidationMsg, []) ∧
    read_multiple_holding_registers (constEnv stubClient) 0 0 1 "127.0.0.1"
        502 "tcp"
      = (.ok countValidationMsg, []) :=
  count_preflight_validation (constEnv stubClient) 0 0 1 "127.0.0.1" 502
    "tcp" (by norm_num)

/-- C3 counterexample: a transport fault outside the caught tuple
(`connect()` raising an `OSError`-like exception) propagates past the
operation boundary instead of being returned as a string: the call does
not return a string result. -/
theorem uncaught_fault_escapes :
    (read_register (constEnv crashClient) 0 1 "127.0.0.1" 502 "tcp").1
      = Except.error (PyError.otherError "boom") := by
  rfl

/-- C3 amended: the operation boundary converts exactly the faults matched
by `except (ModbusException, RuntimeError, ValueError)` into error
strings; a fault that does escape an operation is necessarily outside that
caught set (conversely, any fault in the caught set, and any normal path,
yields a string). -/
theorem boundary_catches_only_listed (env : Env)
    (address count value slave_id : Int) (bval : Bool) (host : String)
    (port : Int) (transport : String) (e : PyError) :
    ((read_register env address slave_id host port transport).1
        = .error e → isCaught e = false) ∧
    ((write_register env address value slave_id host port transport).1
        = .error e → isCaught e = false) ∧
    ((read_coils env address count slave_id host port transport).1
        = .error e → isCaught e = false) ∧
    ((write_coil env address bval slave_id host port transport).1
        = .error e → isCaught e = false) ∧
    ((read_input_registers env address count slave_id host port
        transport).1 = .error e → isCaught e = false) ∧
    ((read_multiple_holding_registers env address count slave_id host port
        transport).1 = .error e → isCaught e = false) := by
  refine ⟨fun h => ?_, fun h => ?_, fun h => ?_, fun h => ?_, fun h => ?_,
    fun h => ?_⟩
  · unfold read_register at h
    exact opCatch_error_not_caught slave_id host port _ e h
  · unfold write_register at h
    exact opCatch_error_not_caught slave_id host port _ e h
  · unfold read_coils at h
    exact opCatch_error_not_caught slave_id host port _ e h
  · unfold write_coil at h
    exact opCatch_error_not_caught slave_id host port _ e h
  · unfold read_input_registers at h
    exact opCatch_error_not_caught slave_id host port _ e h
  · unfold read_multiple_holding_registers at h
    exact opCatch_error_not_caught slave_id host port _ e h

/-- Witness for C3 amended: the concrete escaping fault is outside the
caught set. -/
theorem boundary_catches_only_listed_witness :
    isCaught (PyError.otherError "boom") = false :=
  (boundary_catches_only_listed (constEnv crashClient) 0 1 1 1 true
    "127.0.0.1" 502 "tcp" (PyError.otherError "boom")).1 (by rfl)

/-- C4: with a fake transport whose `connected` flag is false after
`connect()`, every operation returns the connection-failure error string
(the caught `RuntimeError` of the post-connect check) and the trace shows
no exchange primitive was invoked: only construct, connect, close. -/
theorem offline_returns_connection_error (c : FakeClient)
    (address count value slave_id : Int) (bval : Bool) (host : String)
    (port : Int) (transport : String) (ht : validTransport transport)
    (h1 : c.connectOutcome = none) (h2 : c.connected = false)
    (hc : 0 < count) :
    read_register (constEnv c) address slave_id host port transport
      = (.ok (commErrorMsg slave_id host port
            (.runtimeError (connFailMsg transport host port))),
         [.constructed transport, .connectCalled, .closeCalled]) ∧
    write_register (constEnv c) address value slave_id host port transport
      = (.ok (commErrorMsg slave_id host port
            (.runtimeError (connFailMsg transport host port))),
         [.constructed transport, .connectCalled, .closeCalled]) ∧
    read_coils (constEnv c) address count slave_id host port transport
      = (.ok (commErrorMsg slave_id host port
            (.runtimeError (connFailMsg transport host port))),
         [.constructed transport, .connectCalled, .closeCalled]) ∧
    write_coil (constEnv c) address bval slave_id host port transport
      = (.ok (commErrorMsg slave_id host port
            (.runtimeError (connFailMsg transport host port))),
         [.constructed transport, .connectCalled, .closeCalled]) ∧
    read_input_registers (constEnv c) address count slave_id host port
        transport
      = (.ok (commErrorMsg slave_id host port
            (.runtimeError (connFailMsg transport host port))),
         [.constructed transport, .connectCalled, .closeCalled]) ∧
    read_multiple_holding_registers (constEnv c) address count slave_id
        host port transport
      = (.ok (commErrorMsg slave_id host port
            (.runtimeError (connFailMsg transport host port))),
         [.constructed transport, .connectCalled, .closeCalled]) := by
  refine ⟨?_, ?_, ?_, ?_, ?_, ?_⟩
  · unfold read_register
    rw [get_modbus_client_offline c host port transport _ ht h1 h2]
    rfl
  · unfold write_register
    rw [get_modbus_client_offline c host port transport _ ht h1 h2]
    rfl
  · unfold read_coils
    rw [if_neg (not_le.mpr hc),
      get_modbus_client_offline c host port transport _ ht h1 h2]
    rfl
  · unfold write_coil
    rw [get_modbus_client_offline c host port transport _ ht h1 h2]
    rfl
  · unfold read_input_registers
    rw [if_neg (not_le.mpr hc),
      get_modbus_client_offline c host port transport _ ht h1 h2]
    rfl
  · unfold read_multiple_holding_registers
    rw [if_neg (not_le.mpr hc),
      get_modbus_client_offline c host port transport _ ht h1 h2]
    rfl

/-- Witness for C4: a concrete offline fake transport over TCP. -/
theorem offline_returns_connection_error_witness :
    read_register (constEnv offlineClient) 0 1 "127.0.0.1" 502 "tcp"
      = (.ok (commErrorMsg 1 "127.0.0.1" 502
            (.runtimeError (connFailMsg "tcp" "127.0.0.1" 502))),
         [.constructed "tcp", .connectCalled, .closeCalled]) :=
  (offline_returns_connection_error offlineClient 0 1 1 1 true "127.0.0.1"
    502 "tcp" (Or.inl rfl) rfl rfl (by norm_num)).1

/-- Running the context manager with an unrecognized transport: the
`ValueError` is raised before any client is constructed, so the trace is
empty. -/
theorem get_modbus_client_bad (env : Env) (host : String) (port : Int)
    (t : String) (body : FakeClient → OpResult) (h1 : t ≠ "tcp")
    (h2 : t ≠ "udp") (h3 : t ≠ "serial") :
    get_modbus_client env host port t body
      = (.error (.valueError (invalidTransportMsg t)), []) := by
  unfold get_modbus_client
  rw [acquireClient_bad env host port t h1 h2 h3]

/-- C5 counterexample: `read_coils` called with count = 0 and the unknown
transport "bluetooth" returns the count-validation failure, not a
connection/configuration error — the count check fires before the
transport dispatch. -/
theorem bad_transport_validation_first :
    read_coils (constEnv stubClient) 0 0 1 "127.0.0.1" 502 "bluetooth"
      = (.ok countValidationMsg, []) := by
  rfl

/-- C5 amended: an operation called with a transport kind outside
{tcp, udp, serial} returns the invalid-transport configuration error (the
caught `ValueError`) with an empty trace — no client constructed, no I/O —
except that a multi-element read with count <= 0 returns the count
validation error first (also with an empty trace); hence the hypothesis
0 < count for the three multi-element reads. -/
theorem bad_transport_fails_preflight (env : Env)
    (address count value slave_id : Int) (bval : Bool) (host : String)
    (port : Int) (transport : String) (h1 : transport ≠ "tcp")
    (h2 : transport ≠ "udp") (h3 : transport ≠ "serial")
    (hc : 0 < count) :
    read_register env address slave_id host port transport
      = (.ok (commErrorMsg slave_id host port
            (.valueError (invalidTransportMsg transport))), []) ∧
    write_register env address value slave_id host port transport
      = (.ok (commErrorMsg slave_id host port
            (.valueError (invalidTransportMsg transport))), []) ∧
    read_coils env address count slave_id host port transport
      = (.ok (commErrorMsg slave_id host port
            (.valueError (invalidTransportMsg transport))), []) ∧
    write_coil env address bval slave_id host port transport
      = (.ok (commErrorMsg slave_id host port
            (.valueError (invalidTransportMsg transport))), []) ∧
    read_input_registers env address count slave_id host port transport
      = (.ok (commErrorMsg slave_id host port
            (.valueError (invalidTransportMsg transport))), []) ∧
    read_multiple_holding_registers env address count slave_id host port
        transport
      = (.ok (commErrorMsg slave_id host port
            (.valueError (invalidTransportMsg transport))), []) := by
  refine ⟨?_, ?_, ?_, ?_, ?_, ?_⟩
  · unfold read_register
    rw [get_modbus_client_bad env host port transport _ h1 h2 h3]
    rfl
  · unfold write_register
    rw [get_modbus_client_bad env host port transport _ h1 h2 h3]
    rfl
  · unfold read_coils
    rw [if_neg (not_le.mpr hc),
      get_modbus_client_bad env host port transport _ h1 h2 h3]
    rfl
  · unfold write_coil
    rw [get_modbus_client_bad env host port transport _ h1 h2 h3]
    rfl
  · unfold read_input_registers
    rw [if_neg (not_le.mpr hc),
      get_modbus_client_bad env host port transport _ h1 h2 h3]
    rfl
  · unfold read_multiple_holding_registers
    rw [if_neg (not_le.mpr hc),
      get_modbus_client_bad env host port transport _ h1 h2 h3]
    rfl

/-- Witness for C5 amended: the unknown transport "bluetooth" with a
positive count. -/
theorem bad_transport_fails_preflight_witness :
    read_register (constEnv stubClient) 0 1 "127.0.0.1" 502 "bluetooth"
      = (.ok (commErrorMsg 1 "127.0.0.1" 502
            (.valueError (invalidTransportMsg "bluetooth"))), []) :=
  (bad_transport_fails_preflight (constEnv stubClient) 0 1 1 1 true
    "127.0.0.1" 502 "bluetooth" (by decide) (by decide) (by decide)
    (by norm_num)).1

/-- C6: a successful `read_coils` call reports exactly the first `count`
booleans of the bit sequence the transport returned: the success string is
built from `resp.bits.take count.toNat` (see `readCoilsOk`), so surplus
bits beyond `count` are truncated away. -/
theorem read_coils_truncates_bits (c : FakeClient) (resp : PdResponse)
    (address count slave_id : Int) (host : String) (port : Int)
    (transport : String) (ht : validTransport transport)
    (h1 : c.connectOutcome = none) (h2 : c.connected = true)
    (hex : c.onReadCoils address count slave_id = .ok resp)
    (herr : resp.isErr = false) (hc : 0 < count) :
    read_coils (constEnv c) address count slave_id host port transport
      = (.ok (readCoilsOk slave_id address count resp.bits),
         [.constructed transport, .connectCalled,
          .exchangeCalled "read_coils", .closeCalled]) := by
  have hbody : readCoilsBody address count slave_id host port c
      = (.ok (readCoilsOk slave_id address count resp.bits),
         [.exchangeCalled "read_coils"]) := by
    simp [readCoilsBody, hex, herr]
  unfold read_coils
  rw [if_neg (not_le.mpr hc),
    get_modbus_client_run c host port transport _ ht h1 h2, hbody]
  rfl

/-- The spec scenario response for C6: four bits returned. -/
def coilResp : PdResponse :=
  { isErr := false, registers := [], bits := [true, false, true, true],
    toStr := "" }

/-- Witness for C6: ReadCoils(address=0, count=3, slave=1) against bits
[True, False, True, True] yields exactly the first three values. -/
theorem read_coils_truncates_bits_witness :
    read_coils (constEnv (allClient coilResp)) 0 3 1 "127.0.0.1" 502 "tcp"
      = (.ok "Slave 1, Coils 0 to 2: [True, False, True]",
         [.constructed "tcp", .connectCalled, .exchangeCalled "read_coils",
          .closeCalled]) := by
  have h := read_coils_truncates_bits (allClient coilResp) coilResp 0 3 1
    "127.0.0.1" 502 "tcp" (Or.inl rfl) rfl rfl rfl rfl (by norm_num)
  exact h.trans (by rfl)

/-- The all-zero register store. -/
def zeroStore : Int → Int := fun _ => 0

/-- C7: writing 42 to holding register 10 on slave 1 against a fake
transport that accepts the write succeeds, and reading register 10 from
the same transport with the write applied to its store reports value 42. -/
theorem write_then_read_roundtrip :
    write_register (constEnv (storeClient zeroStore)) 10 42 1 "127.0.0.1"
        502 "tcp"
      = (.ok "Successfully wrote 42 to register 10 on slave 1",
         [.constructed "tcp", .connectCalled,
          .exchangeCalled "write_register", .closeCalled]) ∧
    read_register (constEnv (storeClient (storeWrite zeroStore 10 42))) 10
        1 "127.0.0.1" 502 "tcp"
      = (.ok "Slave 1, Register 10 Value: 42",
         [.constructed "tcp", .connectCalled,
          .exchangeCalled "read_holding_registers", .closeCalled]) := by
  constructor
  · rfl
  · rfl

/-- C8: against a fake transport whose every exchange returns an
error-flagged result, each of the six operations returns the
protocol-error string of that operation, and that string contains both the
operation's address and the slave ID. -/
theorem protocol_error_names_address_slave (resp : PdResponse)
    (herr : resp.isErr = true) (address count value slave_id : Int)
    (bval : Bool) (host : String) (port : Int) (transport : String)
    (ht : validTransport transport) (hc : 0 < count) :
    ((read_register (constEnv (allClient resp)) address slave_id host port
        transport).1
      = .ok (readRegisterErr address slave_id host port resp.toStr) ∧
     containsStr (readRegisterErr address slave_id host port resp.toStr)
       (toString address) ∧
     containsStr (readRegisterErr address slave_id host port resp.toStr)
       (toString slave_id)) ∧
    ((write_register (constEnv (allClient resp)) address value slave_id
        host port transport).1
      = .ok (writeRegisterErr address slave_id host port resp.toStr) ∧
     containsStr (writeRegisterErr address slave_id host port resp.toStr)
       (toString address) ∧
     containsStr (writeRegisterErr address slave_id host port resp.toStr)
       (toString slave_id)) ∧
    ((read_coils (constEnv (allClient resp)) address count slave_id host
        port transport).1
      = .ok (readCoilsErr address slave_id host port resp.toStr) ∧
     containsStr (readCoilsErr address slave_id host port resp.toStr)
       (toString address) ∧
     containsStr (readCoilsErr address slave_id host port resp.toStr)
       (toString slave_id)) ∧
    ((write_coil (constEnv (allClient resp)) address bval slave_id host
        port transport).1
      = .ok (writeCoilErr address slave_id host port resp.toStr) ∧
     containsStr (writeCoilErr address slave_id host port resp.toStr)
       (toString address) ∧
     containsStr (writeCoilErr address slave_id host port resp.toStr)
       (toString slave_id)) ∧
    ((read_input_registers (constEnv (allClient resp)) address count
        slave_id host port transport).1
      = .ok (readInputErr address slave_id host port resp.toStr) ∧
     containsStr (readInputErr address slave_id host port resp.toStr)
       (toString address) ∧
     containsStr (readInputErr address slave_id host port resp.toStr)
       (toString slave_id)) ∧
    ((read_multiple_holding_registers (constEnv (allClient resp)) address
        count slave_id host port transport).1
      = .ok (readHoldingErr address slave_id host port resp.toStr) ∧
     containsStr (readHoldingErr address slave_id host port resp.toStr)
       (toString address) ∧
     containsStr (readHoldingErr address slave_id host port resp.toStr)
       (toString slave_id)) := by
  have hA : (allClient resp).connectOutcome = none := rfl
  have hB : (allClient resp).connected = true := rfl
  refine ⟨⟨?_, (readRegisterErr_contains address slave_id host port
      resp.toStr).1, (readRegisterErr_contains address slave_id host port
      resp.toStr).2⟩,
    ⟨?_, (writeRegisterErr_contains address slave_id host port
      resp.toStr).1, (writeRegisterErr_contains address slave_id host port
      resp.toStr).2⟩,
    ⟨?_, (readCoilsErr_contains address slave_id host port resp.toStr).1,
      (readCoilsErr_contains address slave_id host port resp.toStr).2⟩,
    ⟨?_, (writeCoilErr_contains address slave_id host port resp.toStr).1,
      (writeCoilErr_contains address slave_id host port resp.toStr).2⟩,
    ⟨?_, (readInputErr_contains address slave_id host port resp.toStr).1,
      (readInputErr_contains address slave_id host port resp.toStr).2⟩,
    ⟨?_, (readHoldingErr_contains address slave_id host port resp.toStr).1,
      (readHoldingErr_contains address slave_id host port resp.toStr).2⟩⟩
  · have hbody : readRegisterBody address slave_id host port
        (allClient resp)
        = (.ok (readRegisterErr address slave_id host port resp.toStr),
           [.exchangeCalled "read_holding_registers"]) := by
      simp [readRegisterBody, allClient, herr]
    unfold read_register
    rw [get_modbus_client_run (allClient resp) host port transport _ ht hA
      hB, hbody]
    rfl
  · have hbody : writeRegisterBody address value slave_id host port
        (allClient resp)
        = (.ok (writeRegisterErr address slave_id host port resp.toStr),
           [.exchangeCalled "write_register"]) := by
      simp [writeRegisterBody, allClient, herr]
    unfold write_register
    rw [get_modbus_client_run (allClient resp) host port transport _ ht hA
      hB, hbody]
    rfl
  · have hbody : readCoilsBody address count slave_id host port
        (allClient resp)
        = (.ok (readCoilsErr address slave_id host port resp.toStr),
           [.exchangeCalled "read_coils"]) := by
      simp [readCoilsBody, allClient, herr]
    unfold read_coils
    rw [if_neg (not_le.mpr hc),
      get_modbus_client_run (allClient resp) host port transport _ ht hA
        hB, hbody]
    rfl
  · have hbody : writeCoilBody address bval slave_id host port
        (allClient resp)
        = (.ok (writeCoilErr address slave_id host port resp.toStr),
           [.exchangeCalled "write_coil"]) := by
      simp [writeCoilBody, allClient, herr]
    unfold write_coil
    rw [get_modbus_client_run (allClient resp) host port transport _ ht hA
      hB, hbody]
    rfl
  · have hbody : readInputBody address count slave_id host port
        (allClient resp)
        = (.ok (readInputErr address slave_id host port resp.toStr),
           [.exchangeCalled "read_input_registers"]) := by
      simp [readInputBody, allClient, herr]
    unfold read_input_registers
    rw [if_neg (not_le.mpr hc),
      get_modbus_client_run (allClient resp) host port transport _ ht hA
        hB, hbody]
    rfl
  · have hbody : readHoldingBody address count slave_id host port
        (allClient resp)
        = (.ok (readHoldingErr address slave_id host port resp.toStr),
           [.exchangeCalled "read_holding_registers"]) := by
      simp [readHoldingBody, allClient, herr]
    unfold read_multiple_holding_registers
    rw [if_neg (not_le.mpr hc),
      get_modbus_client_run (allClient resp) host port transport _ ht hA
        hB, hbody]
    rfl

/-- An error-flagged exchange response rendered as "Exception". -/
def errResp : PdResponse :=
  { isErr := true, registers := [], bits := [], toStr := "Exception" }

/-- Witness for C8: address 7, slave 3, an error-flagged response. -/
theorem protocol_error_names_address_slave_witness :
    (read_register (constEnv (allClient errResp)) 7 3 "127.0.0.1" 502
        "tcp").1
      = .ok (readRegisterErr 7 3 "127.0.0.1" 502 "Exception") ∧
    containsStr (readRegisterErr 7 3 "127.0.0.1" 502 "Exception")
      (toString (7 : Int)) := by
  have h := protocol_error_names_address_slave errResp rfl 7 1 1 3 true
    "127.0.0.1" 502 "tcp" (Or.inl rfl) (by norm_num)
  exact ⟨h.1.1, h.1.2.1⟩

/-- C9: unlike `read_coils`, the two multi-register reads put the
transport's entire returned register list into the success string
(`readInputOk` / `readHoldingOk` use `resp.registers` unsliced), so a
response longer than `count` is reported in full. -/
theorem register_reads_keep_full_list (c : FakeClient) (resp : PdResponse)
    (address count slave_id : Int) (host : String) (port : Int)
    (transport : String) (ht : validTransport transport)
    (h1 : c.connectOutcome = none) (h2 : c.connected = true)
    (hexI : c.onReadInput address count slave_id = .ok resp)
    (hexH : c.onReadHolding address count slave_id = .ok resp)
    (herr : resp.isErr = false) (hc : 0 < count) :
    read_input_registers (constEnv c) address count slave_id host port
        transport
      = (.ok (readInputOk slave_id address count resp.registers),
         [.constructed transport, .connectCalled,
          .exchangeCalled "read_input_registers", .closeCalled]) ∧
    read_multiple_holding_registers (constEnv c) address count slave_id
        host port transport
      = (.ok (readHoldingOk slave_id address count resp.registers),
         [.constructed transport, .connectCalled,
          .exchangeCalled "read_holding_registers", .closeCalled]) := by
  constructor
  · have hbody : readInputBody address count slave_id host port c
        = (.ok (readInputOk slave_id address count resp.registers),
           [.exchangeCalled "read_input_registers"]) := by
      simp [readInputBody, hexI, herr]
    unfold read_input_registers
    rw [if_neg (not_le.mpr hc),
      get_modbus_client_run c host port transport _ ht h1 h2, hbody]
    rfl
  · have hbody : readHoldingBody address count slave_id host port c
        = (.ok (readHoldingOk slave_id address count resp.registers),
           [.exchangeCalled "read_holding_registers"]) := by
      simp [readHoldingBody, hexH, herr]
    unfold read_multiple_holding_registers
    rw [if_neg (not_le.mpr hc),
      get_modbus_client_run c host port transport _ ht h1 h2, hbody]
    rfl

/-- A response carrying four registers, more than the count of 2 used in
the C9 witness. -/
def fourRegResp : PdResponse :=
  { isErr := false, registers := [1, 2, 3, 4], bits := [], toStr := "" }

/-- Witness for C9: count = 2 against a transport returning 4 registers;
all four appear in both success strings. -/
theorem register_reads_keep_full_list_witness :
    read_input_registers (constEnv (allClient fourRegResp)) 0 2 1
        "127.0.0.1" 502 "tcp"
      = (.ok "Slave 1, Input Registers 0 to 1: [1, 2, 3, 4]",
         [.constructed "tcp", .connectCalled,
          .exchangeCalled "read_input_registers", .closeCalled]) ∧
    read_multiple_holding_registers (constEnv (allClient fourRegResp)) 0 2
        1 "127.0.0.1" 502 "tcp"
      = (.ok "Slave 1, Holding Registers 0 to 1: [1, 2, 3, 4]",
         [.constructed "tcp", .connectCalled,
          .exchangeCalled "read_holding_registers", .closeCalled]) := by
  have h := register_reads_keep_full_list (allClient fourRegResp)
    fourRegResp 0 2 1 "127.0.0.1" 502 "tcp" (Or.inl rfl) rfl rfl rfl rfl
    rfl (by norm_num)
  exact ⟨h.1.trans (by rfl), h.2.trans (by rfl)⟩

/-- C10: the per-call transport argument is matched case-sensitively —
"TCP" (and "Serial") are treated as unrecognized transports and yield the
invalid-transport error with an empty trace — while the process-wide
default read from MODBUS_TYPE is lowercased before matching, so a default
of "TCP" becomes "tcp" and is accepted by the transport dispatch. -/
theorem per_call_transport_case_sensitive (env : Env)
    (address count value slave_id : Int) (bval : Bool) (host : String)
    (port : Int) (hc : 0 < count) :
    read_register env address slave_id host port "TCP"
      = (.ok (commErrorMsg slave_id host port
            (.valueError (invalidTransportMsg "TCP"))), []) ∧
    write_register env address value slave_id host port "TCP"
      = (.ok (commErrorMsg slave_id host port
            (.valueError (invalidTransportMsg "TCP"))), []) ∧
    read_coils env address count slave_id host port "TCP"
      = (.ok (commErrorMsg slave_id host port
            (.valueError (invalidTransportMsg "TCP"))), []) ∧
    write_coil env address bval slave_id host port "TCP"
      = (.ok (commErrorMsg slave_id host port
            (.valueError (invalidTransportMsg "TCP"))), []) ∧
    read_input_registers env address count slave_id host port "TCP"
      = (.ok (commErrorMsg slave_id host port
            (.valueError (invalidTransportMsg "TCP"))), []) ∧
    read_multiple_holding_registers env address count slave_id host port
        "TCP"
      = (.ok (commErrorMsg slave_id host port
            (.valueError (invalidTransportMsg "TCP"))), []) ∧
    read_register env address slave_id host port "Serial"
      = (.ok (commErrorMsg slave_id host port
            (.valueError (invalidTransportMsg "Serial"))), []) ∧
    moduleModbusType (some "TCP") = "tcp" ∧
    moduleModbusType (some "Serial") = "serial" ∧
    acquireClient env host port (moduleModbusType (some "TCP"))
      = .ok (env.tcpClient host port) := by
  refine ⟨?_, ?_, ?_, ?_, ?_, ?_, ?_, by decide, by decide, ?_⟩
  · unfold read_register
    rw [get_modbus_client_bad env host port "TCP" _ (by decide) (by decide)
      (by decide)]
    rfl
  · unfold write_register
    rw [get_modbus_client_bad env host port "TCP" _ (by decide) (by decide)
      (by decide)]
    rfl
  · unfold read_coils
    rw [if_neg (not_le.mpr hc),
      get_modbus_client_bad env host port "TCP" _ (by decide) (by decide)
        (by decide)]
    rfl
  · unfold write_coil
    rw [get_modbus_client_bad env host port "TCP" _ (by decide) (by decide)
      (by decide)]
    rfl
  · unfold read_input_registers
    rw [if_neg (not_le.mpr hc),
      get_modbus_client_bad env host port "TCP" _ (by decide) (by decide)
        (by decide)]
    rfl
  · unfold read_multiple_holding_registers
    rw [if_neg (not_le.mpr hc),
      get_modbus_client_bad env host port "TCP" _ (by decide) (by decide)
        (by decide)]
    rfl
  · unfold read_register
    rw [get_modbus_client_bad env host port "Serial" _ (by decide)
      (by decide) (by decide)]
    rfl
  · rfl

/-- Witness for C10: a concrete call with per-call transport "TCP". -/
theorem per_call_transport_case_sensitive_witness :
    read_register (constEnv stubClient) 0 1 "127.0.0.1" 502 "TCP"
      = (.ok (commErrorMsg 1 "127.0.0.1" 502
            (.valueError (invalidTransportMsg "TCP"))), []) :=
  (per_call_transport_case_sensitive (constEnv stubClient) 0 1 1 1 true
    "127.0.0.1" 502 (by norm_num)).1
